import Mathlib

/-!
Verification of the standard-to-SPIR-V conversion patterns in
`mlir/lib/Conversion/StandardToSPIRV/ConvertStandardToSPIRV.cpp`.

The development shallowly embeds the arithmetic performed by the emitted
SPIR-V instructions (machine words are `Nat` values below `2 ^ width`,
signed operations go through a two's-complement reading into `Int`) and
the control flow of the individual rewrite patterns (fallible rewrites
return `Option` / explicit outcome types).
-/

/-! ## Machine-word helpers -/

/-- Two's-complement signed reading of an `n`-bit word `w < 2 ^ n`. -/
def toSigned (n : Nat) (w : Nat) : Int :=
  if w < 2 ^ (n - 1) then (w : Int) else (w : Int) - 2 ^ n

/-- The `n`-bit word encoding the low `n` bits of the integer `v`
(two's-complement encoding). -/
def ofSigned (n : Nat) (v : Int) : Nat :=
  (v % (2 ^ n : Int)).toNat

/-- SPIR-V `ShiftRightArithmetic` on `n`-bit words: floor division of the
signed value by `2 ^ k`, re-encoded as an `n`-bit word.  (`Int` division
by a positive divisor is floor division.) -/
def shiftRightArithmetic (n w k : Nat) : Nat :=
  ofSigned n (toSigned n w / (2 ^ k : Int))

/-- SPIR-V `Not` on `n`-bit words: bitwise complement within `n` bits. -/
def notW (n x : Nat) : Nat := (2 ^ n - 1) ^^^ x

/-! ## Narrow-access emulation
(`getOffsetForBitwidth`, `adjustAccessChainForBitwidth`, `shiftValue`,
`IntLoadOpPattern`, `IntStoreOpPattern`). -/

/-- Offset (in bits) of element `srcIdx` inside its containing
`targetBits`-wide word: `(srcIdx smod (targetBits / sourceBits)) *
sourceBits`, computed by the emitted `spv.SMod` and `spv.IMul`.  Indices
into a memref are non-negative, so the signed remainder coincides with
the natural-number remainder. -/
def getOffsetForBitwidth (srcIdx sourceBits targetBits : Nat) : Nat :=
  (srcIdx % (targetBits / sourceBits)) * sourceBits

/-- The last index of the access chain is rewritten by the emitted
`spv.SDiv` to the index of the containing `targetBits`-wide word. -/
def adjustAccessChainForBitwidth (lastIndex sourceBits targetBits : Nat) : Nat :=
  lastIndex / (targetBits / sourceBits)

/-- The `shiftValue` helper: `spv.BitwiseAnd` with `mask`, then
`spv.ShiftLeftLogical` by `offset` in `targetBits`-bit arithmetic. -/
def shiftValue (value offset mask targetBits : Nat) : Nat :=
  ((value &&& mask) <<< offset) % 2 ^ targetBits

/-- Value produced by the emulated narrow load (`IntLoadOpPattern`):
load the containing `targetBits` word `w`, `spv.ShiftRightArithmetic` by
the bit offset of element `idx`, then `spv.BitwiseAnd` with the low mask
`(1 << sourceBits) - 1`. -/
def intLoadEmulate (sourceBits targetBits idx w : Nat) : Nat :=
  let offset := getOffsetForBitwidth idx sourceBits targetBits
  shiftRightArithmetic targetBits w offset &&& (2 ^ sourceBits - 1)

/-- Memory scope carried by the emitted atomic instructions. -/
inductive Scope where
  | Device
  | Workgroup
deriving DecidableEq, Repr

/-- Memory-semantics value carried by the emitted atomic instructions. -/
inductive MemorySemantics where
  | AcquireRelease
  | SequentiallyConsistent
deriving DecidableEq, Repr

/-- An emitted atomic read-modify-write instruction, recording the word
index it addresses, its scope, its memory semantics and its operand. -/
inductive AtomicInstr where
  | atomicAnd (wordIndex : Nat) (scope : Scope) (sem : MemorySemantics) (operand : Nat)
  | atomicOr (wordIndex : Nat) (scope : Scope) (sem : MemorySemantics) (operand : Nat)
deriving DecidableEq, Repr

/-- Everything the `IntStoreOpPattern` emulation path computes and emits
for one narrow store: the bit offset, the clear mask, the shifted insert
value, the adjusted word index, and the emitted atomic instruction
sequence. -/
structure IntStoreEmission where
  bitOffset : Nat
  clearBitsMask : Nat
  storeVal : Nat
  wordIndex : Nat
  instrs : List AtomicInstr
deriving DecidableEq, Repr

/-- The `IntStoreOpPattern` emulation path (narrow store of `value` at
linear index `idx`): offset `(idx mod r) * sourceBits`; clear mask
`spv.Not (mask << offset)`; insert value `shiftValue value offset mask`;
word index `idx / r`; then one `spv.AtomicAnd` with the clear mask
followed by one `spv.AtomicOr` with the insert value, both at `Device`
scope with `AcquireRelease` semantics. -/
def intStoreEmit (sourceBits targetBits idx value : Nat) : IntStoreEmission :=
  let offset := getOffsetForBitwidth idx sourceBits targetBits
  let mask := 2 ^ sourceBits - 1
  let clearBitsMask := notW targetBits ((mask <<< offset) % 2 ^ targetBits)
  let storeVal := shiftValue value offset mask targetBits
  let wordIndex := adjustAccessChainForBitwidth idx sourceBits targetBits
  { bitOffset := offset
    clearBitsMask := clearBitsMask
    storeVal := storeVal
    wordIndex := wordIndex
    instrs := [AtomicInstr.atomicAnd wordIndex Scope.Device
                 MemorySemantics.AcquireRelease clearBitsMask,
               AtomicInstr.atomicOr wordIndex Scope.Device
                 MemorySemantics.AcquireRelease storeVal] }

/-- Effect of the emitted atomic-AND/atomic-OR pair on the containing
`targetBits` word `w`: first the clear mask is ANDed in, then the insert
value is ORed in. -/
def intStoreEmulate (sourceBits targetBits idx value w : Nat) : Nat :=
  let e := intStoreEmit sourceBits targetBits idx value
  w &&& e.clearBitsMask ||| e.storeVal

/-! ## Integer attribute conversion (`convertIntegerAttr`)

A source `IntegerAttr` of width `srcW` stores a raw two's-complement bit
pattern `bits < 2 ^ srcW`; `APInt::isIntN N` asks whether the raw value
fits in `N` bits unsigned (`bits < 2 ^ N`), `APInt::isSignedIntN N`
whether the signed reading fits in `N`-bit two's complement, and
`IntegerAttr::getInt` returns the signed reading, which
`Builder::getIntegerAttr` re-encodes as the destination-width
two's-complement pattern. -/

/-- `convertIntegerAttr`: succeed with the sign-re-encoded value if the
raw bits fit unsigned in the destination width, or (after a debug
message) if the signed reading fits in signed destination width;
otherwise fail. -/
def convertIntegerAttr (srcW bits dstW : Nat) : Option Nat :=
  if bits < 2 ^ dstW then
    some (ofSigned dstW (toSigned srcW bits))
  else if -(2 ^ (dstW - 1) : Int) ≤ toSigned srcW bits ∧
      toSigned srcW bits < 2 ^ (dstW - 1) then
    some (ofSigned dstW (toSigned srcW bits))
  else
    none

/-! ## The type model and the rewrite patterns -/

/-- MLIR types as used by these patterns: integer, float, index, vector
and ranked-tensor (shaped) types; SPIR-V array and pointer types appear
as conversion results. -/
inductive MType where
  | int (width : Nat)
  | float (width : Nat)
  | index
  | vector (shape : List Nat) (elem : MType)
  | tensor (shape : List Nat) (elem : MType)
  | spirvArray (count : Nat) (elem : MType)
deriving DecidableEq, Repr

/-- `Type::isInteger(width)`. -/
def MType.isInteger (t : MType) (w : Nat) : Bool :=
  match t with
  | .int w' => w' = w
  | _ => false

/-- `isBoolScalarOrVector`: a width-1 integer, or a vector whose element
type is a width-1 integer. -/
def isBoolScalarOrVector (t : MType) : Bool :=
  if t.isInteger 1 then
    true
  else
    match t with
    | .vector _ elem => elem.isInteger 1
    | _ => false

/-- The SPIR-V opcodes this development distinguishes. -/
inductive SPIRVOpKind where
  | logicalAnd
  | logicalOr
  | bitwiseAnd
  | bitwiseOr
  | bitwiseXor
  | logicalEqual
  | logicalNotEqual
  | iEqual
  | iNotEqual
  | sLessThan
  | sLessThanEqual
  | sGreaterThan
  | sGreaterThanEqual
  | uLessThan
  | uLessThanEqual
  | uGreaterThan
  | uGreaterThanEqual
  | sConvert
  | uConvert
  | convertSToF
  | convertFToS
  | fConvert
deriving DecidableEq, Repr

/-- The logical (boolean) opcodes, as opposed to integer/bitwise ones. -/
def SPIRVOpKind.isLogical : SPIRVOpKind → Bool
  | .logicalAnd | .logicalOr | .logicalEqual | .logicalNotEqual => true
  | _ => false

/-- `BitwiseOpPattern<StdOp, SPIRVLogicalOp, SPIRVBitwiseOp>`: fail when
the result type does not convert; otherwise emit the logical opcode when
the first operand is a boolean scalar or vector and the bitwise opcode
otherwise. -/
def BitwiseOpPattern.matchAndRewrite (logicalOp bitwiseOp : SPIRVOpKind)
    (dstType : Option MType) (operandType : MType) : Option SPIRVOpKind :=
  match dstType with
  | none => none
  | some _ =>
    if isBoolScalarOrVector operandType then some logicalOp else some bitwiseOp

/-- `XOrOpPattern`: fail on boolean scalar/vector operands; otherwise
fail when the result type does not convert, else emit `spv.BitwiseXor`. -/
def XOrOpPattern.matchAndRewrite (dstType : Option MType)
    (operandType : MType) : Option SPIRVOpKind :=
  if isBoolScalarOrVector operandType then
    none
  else
    match dstType with
    | none => none
    | some _ => some SPIRVOpKind.bitwiseXor

/-- The ten `CmpIOp` predicates of the standard dialect. -/
inductive CmpIPredicate where
  | eq
  | ne
  | slt
  | sle
  | sgt
  | sge
  | ult
  | ule
  | ugt
  | uge
deriving DecidableEq, Repr

/-- `BoolCmpIOpPattern`: fail unless the operand type is a scalar
integer of width 1; then only `eq` and `ne` dispatch, to the logical
equality opcodes. -/
def BoolCmpIOpPattern.matchAndRewrite (operandType : MType)
    (p : CmpIPredicate) : Option SPIRVOpKind :=
  match operandType with
  | .int 1 =>
    match p with
    | .eq => some SPIRVOpKind.logicalEqual
    | .ne => some SPIRVOpKind.logicalNotEqual
    | _ => none
  | _ => none

/-- The `CmpIOpPattern` predicate-to-opcode dispatch table. -/
def cmpIOpcode : CmpIPredicate → SPIRVOpKind
  | .eq => .iEqual
  | .ne => .iNotEqual
  | .slt => .sLessThan
  | .sle => .sLessThanEqual
  | .sgt => .sGreaterThan
  | .sge => .sGreaterThanEqual
  | .ult => .uLessThan
  | .ule => .uLessThanEqual
  | .ugt => .uGreaterThan
  | .uge => .uGreaterThanEqual

/-- `CmpIOpPattern`: fail when the operand type is a scalar integer of
width 1; otherwise dispatch every predicate through the table. -/
def CmpIOpPattern.matchAndRewrite (operandType : MType)
    (p : CmpIPredicate) : Option SPIRVOpKind :=
  match operandType with
  | .int 1 => none
  | _ => some (cmpIOpcode p)

/-- Result of a type-casting rewrite: either the operation is erased and
its operand forwarded to all consumers, or one cast instruction of the
mapped opcode is emitted. -/
inductive CastRewrite where
  | forwardOperand
  | emitCast (op : SPIRVOpKind)
deriving DecidableEq, Repr

/-- Number of cast instructions a `CastRewrite` emits. -/
def CastRewrite.castCount : CastRewrite → Nat
  | .forwardOperand => 0
  | .emitCast _ => 1

/-- `TypeCastingOpPattern<StdOp, SPIRVOp>`: when the converted result
type equals the (already converted) operand type, erase the operation by
forwarding its operand; otherwise emit one cast with the mapped opcode. -/
def TypeCastingOpPattern.matchAndRewrite (spirvOp : SPIRVOpKind)
    (dstType : Option MType) (operandType : MType) : CastRewrite :=
  if dstType = some operandType then
    CastRewrite.forwardOperand
  else
    CastRewrite.emitCast spirvOp

/-! ## Composite constants (`ConstantCompositeOpPattern`) -/

/-- Attributes as used by the constant patterns: integer and float
element attributes carry a width and a raw bit pattern; a dense elements
attribute carries its shaped type and its element attributes; `other`
stands for any attribute that is not a `DenseElementsAttr` (for example
a sparse or opaque elements attribute). -/
inductive Attr where
  | intAttr (width : Nat) (bits : Nat)
  | floatAttr (width : Nat) (bits : Nat)
  | denseElements (ty : MType) (values : List Attr)
  | other

/-- `Attribute::dyn_cast<DenseElementsAttr>()`. -/
def Attr.dynCastDenseElements : Attr → Option (MType × List Attr)
  | .denseElements ty vs => some (ty, vs)
  | _ => none

/-- `Type::isa<ShapedType>()`: vector and ranked-tensor types. -/
def MType.isShaped : MType → Bool
  | .vector _ _ => true
  | .tensor _ _ => true
  | _ => false

/-- `ShapedType::getRank()`. -/
def MType.rank : MType → Nat
  | .vector sh _ => sh.length
  | .tensor sh _ => sh.length
  | _ => 0

/-- `ShapedType::getNumElements()`: the product of the shape. -/
def MType.numElements : MType → Nat
  | .vector sh _ => sh.prod
  | .tensor sh _ => sh.prod
  | _ => 1

/-- `ShapedType::getElementType()`. -/
def MType.shapedElemType : MType → MType
  | .vector _ e => e
  | .tensor _ e => e
  | t => t

/-- `Type::isa<FloatType>()`. -/
def MType.isFloat : MType → Bool
  | .float _ => true
  | _ => false

/-- The element type of the converted composite type: the element type
of a SPIR-V array, else `dstType.cast<VectorType>().getElementType()`
(which asserts, i.e. is undefined, on any other type). -/
def dstCompositeElemType : MType → Option MType
  | .spirvArray _ e => some e
  | .vector _ e => some e
  | _ => none

/-- `convertIntegerAttr` lifted to element attributes, as invoked by the
composite pattern's integer branch (the `cast<IntegerAttr>` /
`cast<IntegerType>` there only ever sees integer attributes in
well-formed IR; other inputs are mapped to failure here). -/
def convertIntegerAttrElem (a : Attr) (dstElemType : MType) : Option Attr :=
  match a, dstElemType with
  | .intAttr srcW bits, .int dstW =>
    (convertIntegerAttr srcW bits dstW).map (fun r => Attr.intAttr dstW r)
  | _, _ => none

/-- Outcome of one pattern application: a successful rewrite to
`spv.constant dstType attr`, a clean `failure()`, or undefined behavior
(a null dereference or a failed `cast<>`). -/
inductive PatternResult where
  | success (dstType : MType) (attr : Attr)
  | failure
  | undefinedBehavior

/-- `ConstantCompositeOpPattern::matchAndRewrite`, parameterized by the
type converter `convType` and by the float attribute conversion
`convFloat` (whose rounding behavior lives outside this embedding).

Mirrors the source line by line: require a shaped source type; convert
it; downcast the value attribute to `DenseElementsAttr` — the source
reads `dstElementsAttr.getType()` BEFORE the null check of the downcast,
so a non-dense attribute dereferences a null attribute (undefined
behavior) instead of reaching the `failure()` below the use; linearize
rank-greater-than-one tensors to `[numElements]` and fail on
rank-greater-than-one non-tensors; when the element type changes,
convert each element through the float branch, fail on 1-bit integer
elements, or convert each element through the integer branch; finally
rebuild the dense attribute at the converted element type. -/
def ConstantCompositeOpPattern.matchAndRewrite
    (convType : MType → Option MType)
    (convFloat : Attr → MType → Option Attr)
    (constType : MType) (value : Attr) : PatternResult :=
  if constType.isShaped then
    match convType constType with
    | none => PatternResult.failure
    | some dstType =>
      match Attr.dynCastDenseElements value with
      | none => PatternResult.undefinedBehavior
      | some (attrTy, elems) =>
        let linearized : Option MType :=
          if constType.rank > 1 then
            match constType with
            | .tensor _ _ =>
              some (MType.tensor [constType.numElements] constType.shapedElemType)
            | _ => none
          else
            some attrTy
        match linearized with
        | none => PatternResult.failure
        | some dstAttrType =>
          let srcElemType := constType.shapedElemType
          match dstCompositeElemType dstType with
          | none => PatternResult.undefinedBehavior
          | some dstElemType =>
            if srcElemType = dstElemType then
              PatternResult.success dstType (Attr.denseElements dstAttrType elems)
            else
              let converted : Option (List Attr) :=
                if srcElemType.isFloat then
                  elems.mapM (fun a => convFloat a dstElemType)
                else if srcElemType.isInteger 1 then
                  none
                else
                  elems.mapM (fun a => convertIntegerAttrElem a dstElemType)
              match converted with
              | none => PatternResult.failure
              | some newElems =>
                match dstAttrType with
                | .tensor sh _ =>
                  PatternResult.success dstType
                    (Attr.denseElements (MType.tensor sh dstElemType) newElems)
                | .vector sh _ =>
                  PatternResult.success dstType
                    (Attr.denseElements (MType.vector sh dstElemType) newElems)
                | _ => PatternResult.undefinedBehavior
  else
    PatternResult.failure

/-- A sample type converter used to evaluate the composite pattern on
concrete inputs: 8/16-bit integer element types widen to 32 bits,
tensors become SPIR-V arrays over the number of elements, vectors keep
their shape over the converted element type. -/
def sampleConvType : MType → Option MType
  | .int 8 => some (MType.int 32)
  | .int 16 => some (MType.int 32)
  | .int w => some (MType.int w)
  | .float _ => some (MType.float 32)
  | .index => some (MType.int 32)
  | .vector sh e =>
    (sampleConvType e).map (fun e' => MType.vector sh e')
  | .tensor sh e =>
    (sampleConvType e).map (fun e' => MType.spirvArray sh.prod e')
  | t => some t

/-- A sample float attribute converter for concrete evaluation: only a
32-bit destination succeeds, re-encoding the payload verbatim. -/
def sampleConvFloat : Attr → MType → Option Attr
  | .floatAttr _ bits, .float 32 => some (Attr.floatAttr 32 bits)
  | _, _ => none

/-! ## Helper lemmas -/

theorem and_two_pow_sub_one (a s : Nat) : a &&& (2 ^ s - 1) = a % 2 ^ s := by
  apply Nat.eq_of_testBit_eq
  intro i
  rw [Nat.testBit_land, Nat.testBit_two_pow_sub_one, Nat.testBit_mod_two_pow]
  exact Bool.and_comm _ _

theorem ofSigned_mod (n s : Nat) (v : Int) (hs : s ≤ n) :
    ofSigned n v % 2 ^ s = (v % 2 ^ s).toNat := by
  have hdvd : ((2 : Int) ^ s) ∣ 2 ^ n := pow_dvd_pow 2 hs
  have h0 : (0 : Int) ≤ v % 2 ^ n := Int.emod_nonneg v (by positivity)
  have key : ((ofSigned n v % 2 ^ s : Nat) : Int) = v % 2 ^ s := by
    unfold ofSigned
    push_cast
    rw [Int.toNat_of_nonneg h0, Int.emod_emod_of_dvd v hdvd]
  omega

theorem shiftRightArithmetic_mod (n k s w : Nat) (hks : k + s ≤ n) :
    (shiftRightArithmetic n w k) % 2 ^ s = (w >>> k) % 2 ^ s := by
  have hs : s ≤ n := by omega
  rw [shiftRightArithmetic, ofSigned_mod n s _ hs, Nat.shiftRight_eq_div_pow]
  have hpos : ((2 : Int) ^ k) ≠ 0 := by positivity
  unfold toSigned
  by_cases hcase : w < 2 ^ (n - 1)
  · rw [if_pos hcase]
    have h1 : (w : Int) / (2 : Int) ^ k = ((w / 2 ^ k : Nat) : Int) := by
      rw [Int.ofNat_ediv]
      push_cast
      ring_nf
    rw [h1]
    have h2 : ((w / 2 ^ k : Nat) : Int) % (2 : Int) ^ s =
        ((w / 2 ^ k % 2 ^ s : Nat) : Int) := by
      push_cast
      ring_nf
    rw [h2, Int.toNat_natCast]
  · rw [if_neg hcase]
    have hsplit : ((w : Int) - 2 ^ n) = (w : Int) + (-((2 : Int) ^ (n - k))) * 2 ^ k := by
      have : (2 : Int) ^ (n - k) * 2 ^ k = 2 ^ n := by
        rw [← pow_add]
        congr 1
        omega
      linarith [this]
    rw [hsplit, Int.add_mul_ediv_right _ _ hpos]
    have hdvd2 : ((2 : Int) ^ s) ∣ 2 ^ (n - k) := pow_dvd_pow 2 (by omega)
    have hz : (-((2 : Int) ^ (n - k))) % 2 ^ s = 0 := by
      rw [Int.emod_eq_zero_of_dvd]
      exact dvd_neg.mpr hdvd2
    rw [Int.add_emod, hz, add_zero, Int.emod_emod_of_dvd _ (dvd_refl _)]
    have h1 : (w : Int) / (2 : Int) ^ k = ((w / 2 ^ k : Nat) : Int) := by
      rw [Int.ofNat_ediv]
      push_cast
      ring_nf
    rw [h1]
    have h2 : ((w / 2 ^ k : Nat) : Int) % (2 : Int) ^ s =
        ((w / 2 ^ k % 2 ^ s : Nat) : Int) := by
      push_cast
      ring_nf
    rw [h2, Int.toNat_natCast]

theorem intStore_intLoad_self (sourceBits targetBits idx w : Nat)
    (hpos : 0 < sourceBits) (hdvd : sourceBits ∣ targetBits)
    (hlt : sourceBits < targetBits) (hw : w < 2 ^ targetBits) :
    intStoreEmulate sourceBits targetBits idx
      (intLoadEmulate sourceBits targetBits idx w) w = w := by
  set s := sourceBits
  set t := targetBits
  set r := t / s with hr
  have hrs : r * s = t := Nat.div_mul_cancel hdvd
  have hrpos : 0 < r := Nat.div_pos (Nat.le_of_lt hlt) hpos
  have hofflt : idx % r < r := Nat.mod_lt _ hrpos
  set off := (idx % r) * s with hoff
  have hofft : off + s ≤ t := by
    have : (idx % r) * s ≤ (r - 1) * s := Nat.mul_le_mul_right s (by omega)
    have h2 : (r - 1) * s = t - s := by
      rw [Nat.sub_mul, hrs]
      omega
    omega
  have hload : intLoadEmulate s t idx w = (w >>> off) % 2 ^ s := by
    rw [intLoadEmulate]
    show shiftRightArithmetic t w off &&& (2 ^ s - 1) = _
    rw [and_two_pow_sub_one, shiftRightArithmetic_mod t off s w (by omega)]
  rw [hload]
  set v := (w >>> off) % 2 ^ s with hv
  have hvlt : v < 2 ^ s := Nat.mod_lt _ (by positivity)
  rw [intStoreEmulate, intStoreEmit]
  simp only [shiftValue, notW, getOffsetForBitwidth]
  show w &&& ((2 ^ t - 1) ^^^ (2 ^ s - 1) <<< off % 2 ^ t) |||
      (v &&& (2 ^ s - 1)) <<< off % 2 ^ t = w
  rw [and_two_pow_sub_one v s, Nat.mod_eq_of_lt hvlt]
  apply Nat.eq_of_testBit_eq
  intro p
  by_cases hp : p < t
  · rw [Nat.testBit_lor, Nat.testBit_land, Nat.testBit_xor,
        Nat.testBit_two_pow_sub_one, Nat.testBit_mod_two_pow,
        Nat.testBit_mod_two_pow, Nat.testBit_shiftLeft, Nat.testBit_shiftLeft,
        Nat.testBit_two_pow_sub_one]
    by_cases h1 : off ≤ p
    · by_cases h2 : p - off < s
      · have h3 : v.testBit (p - off) = w.testBit p := by
          rw [hv, Nat.testBit_mod_two_pow, Nat.testBit_shiftRight]
          have : off + (p - off) = p := by omega
          simp [h2, this]
        simp [hp, h1, h2, h3]
      · have h4 : v.testBit (p - off) = false := by
          apply Nat.testBit_lt_two_pow
          calc v < 2 ^ s := hvlt
            _ ≤ 2 ^ (p - off) := Nat.pow_le_pow_right (by omega) (by omega)
        simp [hp, h1, h2, h4]
    · simp [hp, h1]
  · have hlhs : w &&& ((2 ^ t - 1) ^^^ (2 ^ s - 1) <<< off % 2 ^ t) |||
        v <<< off % 2 ^ t < 2 ^ t := by
      apply Nat.or_lt_two_pow
      · calc w &&& _ ≤ w := Nat.and_le_left
          _ < 2 ^ t := hw
      · exact Nat.mod_lt _ (by positivity)
    rw [Nat.testBit_lt_two_pow, Nat.testBit_lt_two_pow]
    · calc w < 2 ^ t := hw
        _ ≤ 2 ^ p := Nat.pow_le_pow_right (by omega) (by omega)
    · calc _ < 2 ^ t := hlhs
        _ ≤ 2 ^ p := Nat.pow_le_pow_right (by omega) (by omega)

theorem ofSigned_of_nonneg (n : Nat) (v : Int) (h0 : 0 ≤ v) (h1 : v < 2 ^ n) :
    ofSigned n v = v.toNat := by
  unfold ofSigned
  rw [Int.emod_eq_of_lt h0 h1]

theorem ofSigned_of_neg (n : Nat) (v : Int) (h0 : -(2 ^ n : Int) ≤ v) (h1 : v < 0) :
    ofSigned n v = (v + 2 ^ n).toNat := by
  unfold ofSigned
  have h2 : (v + 2 ^ n * 1) % (2 ^ n : Int) = v % 2 ^ n :=
    Int.add_mul_emod_self_left v (2 ^ n) 1
  have h3 : (v + 2 ^ n) % (2 ^ n : Int) = v + 2 ^ n := by
    apply Int.emod_eq_of_lt
    · omega
    · omega
  rw [mul_one] at h2
  rw [← h2, h3]

theorem toSigned_ofSigned (n : Nat) (v : Int) (hn : 0 < n)
    (hlo : -(2 ^ (n - 1) : Int) ≤ v) (hhi : v < 2 ^ (n - 1)) :
    toSigned n (ofSigned n v) = v := by
  have hsp : (2 : Int) ^ n = 2 * 2 ^ (n - 1) := by
    rw [← pow_succ']
    congr 1
    omega
  have hppos : (0 : Int) < 2 ^ (n - 1) := by positivity
  have hcast : ((2 ^ (n - 1) : Nat) : Int) = (2 : Int) ^ (n - 1) := by push_cast; ring
  have hcast2 : ((2 ^ n : Nat) : Int) = (2 : Int) ^ n := by push_cast; ring
  rcases le_or_lt 0 v with h0 | h0
  · rw [ofSigned_of_nonneg n v h0 (by omega)]
    unfold toSigned
    rw [if_pos (by omega)]
    omega
  · rw [ofSigned_of_neg n v (by omega) h0]
    unfold toSigned
    rw [if_neg (by omega)]
    omega

/-! ## Claim theorems -/

/-- Claim C1: for every source/target bit-width pair with the target
width a positive multiple of the source width, an emulated narrow load
at an index followed by the emulated narrow store of the loaded value at
the same index leaves the containing target word unchanged — in
particular the element itself keeps its value and every other element
packed into the same word keeps its bits. -/
theorem C1_narrow_load_store_roundtrip (sourceBits targetBits idx w : Nat)
    (hpos : 0 < sourceBits) (hdvd : sourceBits ∣ targetBits)
    (hlt : sourceBits < targetBits) (hw : w < 2 ^ targetBits) :
    intStoreEmulate sourceBits targetBits idx
      (intLoadEmulate sourceBits targetBits idx w) w = w ∧
    ∀ j, intLoadEmulate sourceBits targetBits j
        (intStoreEmulate sourceBits targetBits idx
          (intLoadEmulate sourceBits targetBits idx w) w) =
      intLoadEmulate sourceBits targetBits j w := by
  have h := intStore_intLoad_self sourceBits targetBits idx w hpos hdvd hlt hw
  exact ⟨h, fun j => by rw [h]⟩

theorem C1_narrow_load_store_roundtrip_witness :
    0 < 8 ∧ 8 ∣ 32 ∧ 8 < 32 ∧ 0x12345678 < 2 ^ 32 ∧
    (intStoreEmulate 8 32 5 (intLoadEmulate 8 32 5 0x12345678) 0x12345678 =
        0x12345678 ∧
      ∀ j, intLoadEmulate 8 32 j
          (intStoreEmulate 8 32 5 (intLoadEmulate 8 32 5 0x12345678) 0x12345678) =
        intLoadEmulate 8 32 j 0x12345678) :=
  ⟨by norm_num, ⟨4, rfl⟩, by norm_num, by norm_num,
    C1_narrow_load_store_roundtrip 8 32 5 0x12345678 (by norm_num) ⟨4, rfl⟩
      (by norm_num) (by norm_num)⟩

/-- Claim C2: an emulated 8-bit store of `0xAB` at linear index 5 into
32-bit target words computes bit offset `(5 mod 4) * 8 = 8`, clear mask
`0xFFFF00FF`, insert value `0xAB00`, word index `5 / 4 = 1`, and emits
exactly one atomic-AND with the clear mask followed by exactly one
atomic-OR with the insert value, both at device scope with
acquire-release semantics. -/
theorem C2_int8_store_scenario :
    intStoreEmit 8 32 5 0xAB =
      { bitOffset := 8
        clearBitsMask := 0xFFFF00FF
        storeVal := 0xAB00
        wordIndex := 1
        instrs := [AtomicInstr.atomicAnd 1 Scope.Device
                     MemorySemantics.AcquireRelease 0xFFFF00FF,
                   AtomicInstr.atomicOr 1 Scope.Device
                     MemorySemantics.AcquireRelease 0xAB00] } := by
  decide

/-- Claim C3: integer attribute conversion to an `dstW`-bit destination,
for a source attribute of width `srcW` holding the signed value `v`:
if `v` is representable unsigned in `dstW` bits the conversion succeeds
with `v` unchanged; if `v` is representable only as signed `dstW`-bit
two's complement it succeeds with the reinterpreted signed bit pattern;
otherwise it fails. -/
theorem C3_integer_attr_three_way (srcW dstW : Nat) (v : Int)
    (hs : 0 < srcW) (hd : 0 < dstW)
    (hlo : -(2 ^ (srcW - 1) : Int) ≤ v) (hhi : v < 2 ^ (srcW - 1)) :
    ((0 ≤ v ∧ v < 2 ^ dstW) →
      convertIntegerAttr srcW (ofSigned srcW v) dstW = some v.toNat) ∧
    ((¬(0 ≤ v ∧ v < 2 ^ dstW) ∧
        -(2 ^ (dstW - 1) : Int) ≤ v ∧ v < 2 ^ (dstW - 1)) →
      convertIntegerAttr srcW (ofSigned srcW v) dstW = some (ofSigned dstW v)) ∧
    ((¬(0 ≤ v ∧ v < 2 ^ dstW) ∧
        ¬(-(2 ^ (dstW - 1) : Int) ≤ v ∧ v < 2 ^ (dstW - 1))) →
      convertIntegerAttr srcW (ofSigned srcW v) dstW = none) := by
  have hts : toSigned srcW (ofSigned srcW v) = v := toSigned_ofSigned srcW v hs hlo hhi
  have hspS : (2 : Int) ^ srcW = 2 * 2 ^ (srcW - 1) := by
    rw [← pow_succ']
    congr 1
    omega
  have hspD : (2 : Int) ^ dstW = 2 * 2 ^ (dstW - 1) := by
    rw [← pow_succ']
    congr 1
    omega
  have hpposS : (0 : Int) < 2 ^ (srcW - 1) := by positivity
  have hpposD : (0 : Int) < 2 ^ (dstW - 1) := by positivity
  have hcastD : ((2 ^ dstW : Nat) : Int) = (2 : Int) ^ dstW := by push_cast; ring
  refine ⟨?_, ?_, ?_⟩
  · rintro ⟨h0, h1⟩
    have hbits : ofSigned srcW v = v.toNat := ofSigned_of_nonneg srcW v h0 (by omega)
    unfold convertIntegerAttr
    rw [hts, hbits, if_pos (by omega), ofSigned_of_nonneg dstW v h0 h1]
  · rintro ⟨h01, h2, h3⟩
    have hv0 : v < 0 := by
      rcases lt_or_ge v 0 with h | h
      · exact h
      · exact absurd ⟨h, by omega⟩ h01
    have hbits : ofSigned srcW v = (v + 2 ^ srcW).toNat :=
      ofSigned_of_neg srcW v (by omega) hv0
    unfold convertIntegerAttr
    rw [hts, hbits]
    by_cases hb : (v + 2 ^ srcW).toNat < 2 ^ dstW
    · rw [if_pos hb]
    · rw [if_neg hb, if_pos ⟨h2, h3⟩]
  · rintro ⟨h01, h23⟩
    unfold convertIntegerAttr
    rw [hts]
    rcases lt_or_ge v 0 with hv0 | hv0
    · have hbits : ofSigned srcW v = (v + 2 ^ srcW).toNat :=
        ofSigned_of_neg srcW v (by omega) hv0
      have hsd : dstW < srcW := by
        by_contra hc
        push_neg at hc
        have : (2 : Int) ^ (dstW - 1) ≥ 2 ^ (srcW - 1) := by
          apply pow_le_pow_right₀ (by norm_num)
          omega
        exact h23 ⟨by omega, by omega⟩
      have hge : (2 : Int) ^ (srcW - 1) ≥ 2 ^ dstW := by
        apply pow_le_pow_right₀ (by norm_num)
        omega
      rw [hbits, if_neg (by omega), if_neg h23]
    · have hbits : ofSigned srcW v = v.toNat := ofSigned_of_nonneg srcW v hv0 (by omega)
      rw [hbits, if_neg (by omega), if_neg h23]

theorem C3_integer_attr_three_way_witness :
    (0 < 8 ∧ 0 < 32 ∧ -(2 ^ 7 : Int) ≤ -1 ∧ (-1 : Int) < 2 ^ 7 ∧
      ¬((0 : Int) ≤ -1 ∧ (-1 : Int) < 2 ^ 32) ∧
      -(2 ^ 31 : Int) ≤ -1 ∧ (-1 : Int) < 2 ^ 31) ∧
    convertIntegerAttr 8 (ofSigned 8 (-1)) 32 = some (ofSigned 32 (-1)) :=
  ⟨⟨by norm_num, by norm_num, by norm_num, by norm_num, by norm_num,
      by norm_num, by norm_num⟩,
    (C3_integer_attr_three_way 8 32 (-1) (by norm_num) (by norm_num)
        (by norm_num) (by norm_num)).2.1
      ⟨by norm_num, by norm_num, by norm_num⟩⟩

/-- Claim C5: AND and OR on boolean (1-bit scalar or 1-bit-element
vector) operands dispatch to the logical opcodes, and on wider integer
operands (scalar or vector) to the bitwise opcodes; XOR on boolean
operands fails, and on wider integer operands emits the bitwise XOR
opcode. -/
theorem C5_bitwise_logical_dispatch :
    (∀ dt t, isBoolScalarOrVector t = true →
      BitwiseOpPattern.matchAndRewrite SPIRVOpKind.logicalAnd
          SPIRVOpKind.bitwiseAnd (some dt) t = some SPIRVOpKind.logicalAnd ∧
      BitwiseOpPattern.matchAndRewrite SPIRVOpKind.logicalOr
          SPIRVOpKind.bitwiseOr (some dt) t = some SPIRVOpKind.logicalOr) ∧
    (∀ dt w, w ≠ 1 →
      BitwiseOpPattern.matchAndRewrite SPIRVOpKind.logicalAnd
          SPIRVOpKind.bitwiseAnd (some dt) (MType.int w) =
        some SPIRVOpKind.bitwiseAnd ∧
      BitwiseOpPattern.matchAndRewrite SPIRVOpKind.logicalOr
          SPIRVOpKind.bitwiseOr (some dt) (MType.int w) =
        some SPIRVOpKind.bitwiseOr ∧
      ∀ sh,
        BitwiseOpPattern.matchAndRewrite SPIRVOpKind.logicalAnd
            SPIRVOpKind.bitwiseAnd (some dt) (MType.vector sh (MType.int w)) =
          some SPIRVOpKind.bitwiseAnd ∧
        BitwiseOpPattern.matchAndRewrite SPIRVOpKind.logicalOr
            SPIRVOpKind.bitwiseOr (some dt) (MType.vector sh (MType.int w)) =
          some SPIRVOpKind.bitwiseOr) ∧
    (∀ dt t, isBoolScalarOrVector t = true →
      XOrOpPattern.matchAndRewrite (some dt) t = none) ∧
    (∀ dt w, w ≠ 1 →
      XOrOpPattern.matchAndRewrite (some dt) (MType.int w) =
        some SPIRVOpKind.bitwiseXor ∧
      ∀ sh, XOrOpPattern.matchAndRewrite (some dt)
          (MType.vector sh (MType.int w)) = some SPIRVOpKind.bitwiseXor) := by
  have hint : ∀ w, w ≠ 1 → isBoolScalarOrVector (MType.int w) = false := by
    intro w hw
    simp [isBoolScalarOrVector, MType.isInteger, hw]
  have hvec : ∀ sh w, w ≠ 1 →
      isBoolScalarOrVector (MType.vector sh (MType.int w)) = false := by
    intro sh w hw
    simp [isBoolScalarOrVector, MType.isInteger, hw]
  refine ⟨?_, ?_, ?_, ?_⟩
  · intro dt t h
    constructor <;> simp [BitwiseOpPattern.matchAndRewrite, h]
  · intro dt w hw
    refine ⟨?_, ?_, fun sh => ⟨?_, ?_⟩⟩ <;>
      simp [BitwiseOpPattern.matchAndRewrite, hint w hw, hvec _ w hw]
  · intro dt t h
    simp [XOrOpPattern.matchAndRewrite, h]
  · intro dt w hw
    refine ⟨?_, fun sh => ?_⟩ <;>
      simp [XOrOpPattern.matchAndRewrite, hint w hw, hvec _ w hw]

theorem C5_bitwise_logical_dispatch_witness :
    (isBoolScalarOrVector (MType.int 1) = true ∧
      BitwiseOpPattern.matchAndRewrite SPIRVOpKind.logicalAnd
          SPIRVOpKind.bitwiseAnd (some (MType.int 1)) (MType.int 1) =
        some SPIRVOpKind.logicalAnd) ∧
    ((32 : Nat) ≠ 1 ∧
      BitwiseOpPattern.matchAndRewrite SPIRVOpKind.logicalAnd
          SPIRVOpKind.bitwiseAnd (some (MType.int 32)) (MType.int 32) =
        some SPIRVOpKind.bitwiseAnd) ∧
    XOrOpPattern.matchAndRewrite (some (MType.int 1)) (MType.int 1) = none ∧
    XOrOpPattern.matchAndRewrite (some (MType.int 32)) (MType.int 32) =
      some SPIRVOpKind.bitwiseXor :=
  ⟨⟨by decide, (C5_bitwise_logical_dispatch.1 (MType.int 1) (MType.int 1)
      (by decide)).1⟩,
    ⟨by decide, (C5_bitwise_logical_dispatch.2.1 (MType.int 32) 32
      (by decide)).1⟩,
    C5_bitwise_logical_dispatch.2.2.1 (MType.int 1) (MType.int 1) (by decide),
    (C5_bitwise_logical_dispatch.2.2.2 (MType.int 32) 32 (by decide)).1⟩

/-- Claim C6: integer comparison splits by operand width: on 1-bit
scalar operands only `eq` and `ne` succeed, through the boolean pattern,
lowering to the logical equality opcodes, and every other predicate
fails in both patterns; on any other scalar width the general pattern
succeeds for all ten predicates through the fixed table (in particular
`slt` on 32-bit operands lowers to the signed-less-than opcode), and the
general pattern never matches 1-bit operands. -/
theorem C6_cmpi_width_split :
    (BoolCmpIOpPattern.matchAndRewrite (MType.int 1) CmpIPredicate.eq =
      some SPIRVOpKind.logicalEqual) ∧
    (BoolCmpIOpPattern.matchAndRewrite (MType.int 1) CmpIPredicate.ne =
      some SPIRVOpKind.logicalNotEqual) ∧
    (∀ p, p ≠ CmpIPredicate.eq → p ≠ CmpIPredicate.ne →
      BoolCmpIOpPattern.matchAndRewrite (MType.int 1) p = none) ∧
    (∀ p, CmpIOpPattern.matchAndRewrite (MType.int 1) p = none) ∧
    (∀ w p, w ≠ 1 →
      CmpIOpPattern.matchAndRewrite (MType.int w) p = some (cmpIOpcode p)) ∧
    (CmpIOpPattern.matchAndRewrite (MType.int 32) CmpIPredicate.slt =
      some SPIRVOpKind.sLessThan) := by
  refine ⟨rfl, rfl, ?_, ?_, ?_, rfl⟩
  · intro p h1 h2
    cases p <;> first | rfl | exact absurd rfl h1 | exact absurd rfl h2
  · intro p
    rfl
  · intro w p hw
    match w, hw with
    | 0, _ => rfl
    | Nat.succ 0, hw => exact absurd rfl hw
    | Nat.succ (Nat.succ n), _ => rfl

theorem C6_cmpi_width_split_witness :
    (CmpIPredicate.slt ≠ CmpIPredicate.eq ∧
      CmpIPredicate.slt ≠ CmpIPredicate.ne ∧
      BoolCmpIOpPattern.matchAndRewrite (MType.int 1) CmpIPredicate.slt = none) ∧
    ((32 : Nat) ≠ 1 ∧
      CmpIOpPattern.matchAndRewrite (MType.int 32) CmpIPredicate.slt =
        some (cmpIOpcode CmpIPredicate.slt)) :=
  ⟨⟨by decide, by decide,
      C6_cmpi_width_split.2.2.1 CmpIPredicate.slt (by decide) (by decide)⟩,
    ⟨by decide, C6_cmpi_width_split.2.2.2.2.1 32 CmpIPredicate.slt (by decide)⟩⟩

/-- Claim C7: a cast whose converted destination type equals the type of
its converted operand emits zero cast instructions and forwards the
operand; when the types differ exactly one cast instruction of the
mapped opcode is emitted. -/
theorem C7_cast_identity_elimination :
    (∀ op t, TypeCastingOpPattern.matchAndRewrite op (some t) t =
        CastRewrite.forwardOperand ∧
      (TypeCastingOpPattern.matchAndRewrite op (some t) t).castCount = 0) ∧
    (∀ op dt t, dt ≠ t →
      TypeCastingOpPattern.matchAndRewrite op (some dt) t =
        CastRewrite.emitCast op ∧
      (TypeCastingOpPattern.matchAndRewrite op (some dt) t).castCount = 1) := by
  constructor
  · intro op t
    constructor <;> simp [TypeCastingOpPattern.matchAndRewrite, CastRewrite.castCount]
  · intro op dt t h
    constructor <;>
      simp [TypeCastingOpPattern.matchAndRewrite, CastRewrite.castCount, h]

theorem C7_cast_identity_elimination_witness :
    (TypeCastingOpPattern.matchAndRewrite SPIRVOpKind.sConvert
        (some (MType.int 32)) (MType.int 32) = CastRewrite.forwardOperand) ∧
    (MType.int 32 ≠ MType.float 32 ∧
      TypeCastingOpPattern.matchAndRewrite SPIRVOpKind.convertSToF
        (some (MType.int 32)) (MType.float 32) =
        CastRewrite.emitCast SPIRVOpKind.convertSToF) :=
  ⟨(C7_cast_identity_elimination.1 SPIRVOpKind.sConvert (MType.int 32)).1,
    ⟨by decide, (C7_cast_identity_elimination.2 SPIRVOpKind.convertSToF
        (MType.int 32) (MType.float 32) (by decide)).1⟩⟩

/-- Claim C10: for vectors of 1-bit elements the boolean comparison
pattern does not match (its guard requires a scalar width-1 integer), so
integer comparisons on such operands route through the general pattern,
where all ten predicates succeed and lower to the ordinary integer
comparison opcodes, none of which is a logical opcode. -/
theorem C10_bool_vector_cmp_routes_general (sh : List Nat) (p : CmpIPredicate) :
    BoolCmpIOpPattern.matchAndRewrite (MType.vector sh (MType.int 1)) p = none ∧
    CmpIOpPattern.matchAndRewrite (MType.vector sh (MType.int 1)) p =
      some (cmpIOpcode p) ∧
    (cmpIOpcode p).isLogical = false := by
  refine ⟨rfl, rfl, ?_⟩
  cases p <;> rfl

theorem C10_bool_vector_cmp_routes_general_witness :
    BoolCmpIOpPattern.matchAndRewrite (MType.vector [4] (MType.int 1))
        CmpIPredicate.slt = none ∧
    CmpIOpPattern.matchAndRewrite (MType.vector [4] (MType.int 1))
        CmpIPredicate.slt = some (cmpIOpcode CmpIPredicate.slt) ∧
    (cmpIOpcode CmpIPredicate.slt).isLogical = false :=
  C10_bool_vector_cmp_routes_general [4] CmpIPredicate.slt

theorem composite_rank2_tensor_keeps_values (cT : MType → Option MType)
    (cF : Attr → MType → Option Attr) (sh : List Nat) (e : MType)
    (vs : List Attr) (dstType : MType) (hrank : 1 < sh.length)
    (hconv : cT (MType.tensor sh e) = some dstType)
    (helem : dstCompositeElemType dstType = some e) :
    ConstantCompositeOpPattern.matchAndRewrite cT cF (MType.tensor sh e)
        (Attr.denseElements (MType.tensor sh e) vs) =
      PatternResult.success dstType
        (Attr.denseElements (MType.tensor [sh.prod] e) vs) := by
  simp [ConstantCompositeOpPattern.matchAndRewrite, hconv, helem,
    Attr.dynCastDenseElements, MType.isShaped, MType.rank, hrank,
    MType.numElements, MType.shapedElemType]

theorem composite_rank2_tensor_int_convert (cT : MType → Option MType)
    (cF : Attr → MType → Option Attr) (sh : List Nat) (w w' : Nat)
    (vs vs' : List Attr) (dstType : MType) (hrank : 1 < sh.length)
    (hw : w ≠ 1) (hne : w ≠ w')
    (hconv : cT (MType.tensor sh (MType.int w)) = some dstType)
    (helem : dstCompositeElemType dstType = some (MType.int w'))
    (hmap : vs.mapM (fun a => convertIntegerAttrElem a (MType.int w')) = some vs') :
    ConstantCompositeOpPattern.matchAndRewrite cT cF
        (MType.tensor sh (MType.int w))
        (Attr.denseElements (MType.tensor sh (MType.int w)) vs) =
      PatternResult.success dstType
        (Attr.denseElements (MType.tensor [sh.prod] (MType.int w')) vs') := by
  have hne2 : MType.int w ≠ MType.int w' := by
    intro h
    cases h
    exact hne rfl
  simp [ConstantCompositeOpPattern.matchAndRewrite, hconv, helem,
    Attr.dynCastDenseElements, MType.isShaped, MType.rank, hrank,
    MType.numElements, MType.shapedElemType, hne2, MType.isFloat,
    MType.isInteger, hw]
  have hmap2 : List.mapM.loop (fun a => convertIntegerAttrElem a (MType.int w'))
      vs [] = some vs' := hmap
  rw [hmap2]

theorem composite_rank2_vector_fails (cT : MType → Option MType)
    (cF : Attr → MType → Option Attr) (sh : List Nat) (e : MType)
    (ty : MType) (vs : List Attr) (dstType : MType) (hrank : 1 < sh.length)
    (hconv : cT (MType.vector sh e) = some dstType) :
    ConstantCompositeOpPattern.matchAndRewrite cT cF (MType.vector sh e)
        (Attr.denseElements ty vs) = PatternResult.failure := by
  simp [ConstantCompositeOpPattern.matchAndRewrite, hconv,
    Attr.dynCastDenseElements, MType.isShaped, MType.rank, hrank]

theorem composite_bool_elem_fails (cT : MType → Option MType)
    (cF : Attr → MType → Option Attr) (constType : MType) (ty : MType)
    (vs : List Attr) (dstType dstElem : MType)
    (hsh : constType.isShaped = true)
    (he : constType.shapedElemType = MType.int 1)
    (hconv : cT constType = some dstType)
    (helem : dstCompositeElemType dstType = some dstElem)
    (hne : dstElem ≠ MType.int 1) :
    ConstantCompositeOpPattern.matchAndRewrite cT cF constType
        (Attr.denseElements ty vs) = PatternResult.failure := by
  match constType, hsh with
  | MType.vector sh e, _ =>
    have he' : e = MType.int 1 := he
    subst he'
    by_cases hrank : 1 < sh.length
    · simp [ConstantCompositeOpPattern.matchAndRewrite, hconv,
        Attr.dynCastDenseElements, MType.isShaped, MType.rank, hrank]
    · simp [ConstantCompositeOpPattern.matchAndRewrite, hconv, helem,
        Attr.dynCastDenseElements, MType.isShaped, MType.rank, hrank,
        MType.shapedElemType, Ne.symm hne, MType.isFloat, MType.isInteger]
  | MType.tensor sh e, _ =>
    have he' : e = MType.int 1 := he
    subst he'
    by_cases hrank : 1 < sh.length
    · simp [ConstantCompositeOpPattern.matchAndRewrite, hconv, helem,
        Attr.dynCastDenseElements, MType.isShaped, MType.rank, hrank,
        MType.numElements, MType.shapedElemType, Ne.symm hne, MType.isFloat,
        MType.isInteger]
    · simp [ConstantCompositeOpPattern.matchAndRewrite, hconv, helem,
        Attr.dynCastDenseElements, MType.isShaped, MType.rank, hrank,
        MType.shapedElemType, Ne.symm hne, MType.isFloat, MType.isInteger]

theorem composite_float_elemwise (cT : MType → Option MType)
    (cF : Attr → MType → Option Attr) (sh : List Nat) (fw : Nat)
    (vs ws : List Attr) (dstType dstElem : MType)
    (hrank : ¬ 1 < sh.length)
    (hconv : cT (MType.vector sh (MType.float fw)) = some dstType)
    (helem : dstCompositeElemType dstType = some dstElem)
    (hne : dstElem ≠ MType.float fw)
    (hmap : vs.mapM (fun a => cF a dstElem) = some ws) :
    ConstantCompositeOpPattern.matchAndRewrite cT cF
        (MType.vector sh (MType.float fw))
        (Attr.denseElements (MType.vector sh (MType.float fw)) vs) =
      PatternResult.success dstType
        (Attr.denseElements (MType.vector sh dstElem) ws) := by
  simp [ConstantCompositeOpPattern.matchAndRewrite, hconv, helem,
    Attr.dynCastDenseElements, MType.isShaped, MType.rank, hrank,
    MType.shapedElemType, Ne.symm hne, MType.isFloat]
  have hmap2 : List.mapM.loop (fun a => cF a dstElem) vs [] = some ws := hmap
  rw [hmap2]

theorem composite_int_elemwise (cT : MType → Option MType)
    (cF : Attr → MType → Option Attr) (sh : List Nat) (w w' : Nat)
    (vs ws : List Attr) (dstType : MType) (hrank : ¬ 1 < sh.length)
    (hw : w ≠ 1) (hne : w ≠ w')
    (hconv : cT (MType.tensor sh (MType.int w)) = some dstType)
    (helem : dstCompositeElemType dstType = some (MType.int w'))
    (hmap : vs.mapM (fun a => convertIntegerAttrElem a (MType.int w')) = some ws) :
    ConstantCompositeOpPattern.matchAndRewrite cT cF
        (MType.tensor sh (MType.int w))
        (Attr.denseElements (MType.tensor sh (MType.int w)) vs) =
      PatternResult.success dstType
        (Attr.denseElements (MType.tensor sh (MType.int w')) ws) := by
  have hne2 : MType.int w ≠ MType.int w' := by
    intro h
    cases h
    exact hne rfl
  simp [ConstantCompositeOpPattern.matchAndRewrite, hconv, helem,
    Attr.dynCastDenseElements, MType.isShaped, MType.rank, hrank,
    MType.shapedElemType, hne2, MType.isFloat, MType.isInteger, hw]
  have hmap2 : List.mapM.loop (fun a => convertIntegerAttrElem a (MType.int w'))
      vs [] = some ws := hmap
  rw [hmap2]

/-- Claim C8: composite constant conversion is direct only at rank 1:
a rank-greater-than-1 tensor constant is linearized into a single
dimension of `product(shape)` elements before element-wise conversion
(both when the element type is unchanged and when it is converted); a
rank-greater-than-1 non-tensor composite makes the pattern fail; and
when the element type must change, a 1-bit integer element type always
makes the pattern fail while float and general integer element types are
converted element by element into a fresh composite attribute. -/
theorem C8_composite_constant_conversion :
    (∀ cT cF sh e vs dstType, 1 < List.length sh →
      cT (MType.tensor sh e) = some dstType →
      dstCompositeElemType dstType = some e →
      ConstantCompositeOpPattern.matchAndRewrite cT cF (MType.tensor sh e)
          (Attr.denseElements (MType.tensor sh e) vs) =
        PatternResult.success dstType
          (Attr.denseElements (MType.tensor [sh.prod] e) vs)) ∧
    (∀ cT cF sh w w' vs vs' dstType, 1 < List.length sh → w ≠ 1 → w ≠ w' →
      cT (MType.tensor sh (MType.int w)) = some dstType →
      dstCompositeElemType dstType = some (MType.int w') →
      vs.mapM (fun a => convertIntegerAttrElem a (MType.int w')) = some vs' →
      ConstantCompositeOpPattern.matchAndRewrite cT cF
          (MType.tensor sh (MType.int w))
          (Attr.denseElements (MType.tensor sh (MType.int w)) vs) =
        PatternResult.success dstType
          (Attr.denseElements (MType.tensor [sh.prod] (MType.int w')) vs')) ∧
    (∀ cT cF sh e ty vs dstType, 1 < List.length sh →
      cT (MType.vector sh e) = some dstType →
      ConstantCompositeOpPattern.matchAndRewrite cT cF (MType.vector sh e)
          (Attr.denseElements ty vs) = PatternResult.failure) ∧
    (∀ cT cF constType ty vs dstType dstElem, constType.isShaped = true →
      constType.shapedElemType = MType.int 1 →
      cT constType = some dstType →
      dstCompositeElemType dstType = some dstElem →
      dstElem ≠ MType.int 1 →
      ConstantCompositeOpPattern.matchAndRewrite cT cF constType
          (Attr.denseElements ty vs) = PatternResult.failure) ∧
    (∀ cT cF sh fw vs ws dstType dstElem, ¬ 1 < List.length sh →
      cT (MType.vector sh (MType.float fw)) = some dstType →
      dstCompositeElemType dstType = some dstElem →
      dstElem ≠ MType.float fw →
      vs.mapM (fun a => cF a dstElem) = some ws →
      ConstantCompositeOpPattern.matchAndRewrite cT cF
          (MType.vector sh (MType.float fw))
          (Attr.denseElements (MType.vector sh (MType.float fw)) vs) =
        PatternResult.success dstType
          (Attr.denseElements (MType.vector sh dstElem) ws)) ∧
    (∀ cT cF sh w w' vs ws dstType, ¬ 1 < List.length sh → w ≠ 1 → w ≠ w' →
      cT (MType.tensor sh (MType.int w)) = some dstType →
      dstCompositeElemType dstType = some (MType.int w') →
      vs.mapM (fun a => convertIntegerAttrElem a (MType.int w')) = some ws →
      ConstantCompositeOpPattern.matchAndRewrite cT cF
          (MType.tensor sh (MType.int w))
          (Attr.denseElements (MType.tensor sh (MType.int w)) vs) =
        PatternResult.success dstType
          (Attr.denseElements (MType.tensor sh (MType.int w')) ws)) :=
  ⟨fun cT cF sh e vs dstType h1 h2 h3 =>
      composite_rank2_tensor_keeps_values cT cF sh e vs dstType h1 h2 h3,
    fun cT cF sh w w' vs vs' dstType h1 h2 h3 h4 h5 h6 =>
      composite_rank2_tensor_int_convert cT cF sh w w' vs vs' dstType h1 h2 h3 h4 h5 h6,
    fun cT cF sh e ty vs dstType h1 h2 =>
      composite_rank2_vector_fails cT cF sh e ty vs dstType h1 h2,
    fun cT cF constType ty vs dstType dstElem h1 h2 h3 h4 h5 =>
      composite_bool_elem_fails cT cF constType ty vs dstType dstElem h1 h2 h3 h4 h5,
    fun cT cF sh fw vs ws dstType dstElem h1 h2 h3 h4 h5 =>
      composite_float_elemwise cT cF sh fw vs ws dstType dstElem h1 h2 h3 h4 h5,
    fun cT cF sh w w' vs ws dstType h1 h2 h3 h4 h5 h6 =>
      composite_int_elemwise cT cF sh w w' vs ws dstType h1 h2 h3 h4 h5 h6⟩

theorem C8_composite_constant_conversion_witness :
    (ConstantCompositeOpPattern.matchAndRewrite
        (fun _ => some (MType.spirvArray 4 (MType.int 8))) sampleConvFloat
        (MType.tensor [2, 2] (MType.int 8))
        (Attr.denseElements (MType.tensor [2, 2] (MType.int 8))
          [Attr.intAttr 8 1, Attr.intAttr 8 2, Attr.intAttr 8 3, Attr.intAttr 8 4]) =
      PatternResult.success (MType.spirvArray 4 (MType.int 8))
        (Attr.denseElements (MType.tensor [4] (MType.int 8))
          [Attr.intAttr 8 1, Attr.intAttr 8 2, Attr.intAttr 8 3, Attr.intAttr 8 4])) ∧
    (ConstantCompositeOpPattern.matchAndRewrite sampleConvType sampleConvFloat
        (MType.tensor [2, 2] (MType.int 8))
        (Attr.denseElements (MType.tensor [2, 2] (MType.int 8))
          [Attr.intAttr 8 1, Attr.intAttr 8 255, Attr.intAttr 8 3, Attr.intAttr 8 4]) =
      PatternResult.success (MType.spirvArray 4 (MType.int 32))
        (Attr.denseElements (MType.tensor [4] (MType.int 32))
          [Attr.intAttr 32 1, Attr.intAttr 32 0xFFFFFFFF, Attr.intAttr 32 3,
            Attr.intAttr 32 4])) ∧
    (ConstantCompositeOpPattern.matchAndRewrite sampleConvType sampleConvFloat
        (MType.vector [2, 2] (MType.int 8))
        (Attr.denseElements (MType.vector [2, 2] (MType.int 8))
          [Attr.intAttr 8 1, Attr.intAttr 8 2, Attr.intAttr 8 3, Attr.intAttr 8 4]) =
      PatternResult.failure) ∧
    (ConstantCompositeOpPattern.matchAndRewrite
        (fun _ => some (MType.vector [2] (MType.int 32))) sampleConvFloat
        (MType.vector [2] (MType.int 1))
        (Attr.denseElements (MType.vector [2] (MType.int 1))
          [Attr.intAttr 1 0, Attr.intAttr 1 1]) =
      PatternResult.failure) ∧
    (ConstantCompositeOpPattern.matchAndRewrite sampleConvType sampleConvFloat
        (MType.vector [2] (MType.float 64))
        (Attr.denseElements (MType.vector [2] (MType.float 64))
          [Attr.floatAttr 64 7, Attr.floatAttr 64 9]) =
      PatternResult.success (MType.vector [2] (MType.float 32))
        (Attr.denseElements (MType.vector [2] (MType.float 32))
          [Attr.floatAttr 32 7, Attr.floatAttr 32 9])) ∧
    (ConstantCompositeOpPattern.matchAndRewrite sampleConvType sampleConvFloat
        (MType.tensor [3] (MType.int 8))
        (Attr.denseElements (MType.tensor [3] (MType.int 8))
          [Attr.intAttr 8 5, Attr.intAttr 8 6, Attr.intAttr 8 7]) =
      PatternResult.success (MType.spirvArray 3 (MType.int 32))
        (Attr.denseElements (MType.tensor [3] (MType.int 32))
          [Attr.intAttr 32 5, Attr.intAttr 32 6, Attr.intAttr 32 7])) :=
  ⟨C8_composite_constant_conversion.1
      (fun _ => some (MType.spirvArray 4 (MType.int 8))) sampleConvFloat
      [2, 2] (MType.int 8)
      [Attr.intAttr 8 1, Attr.intAttr 8 2, Attr.intAttr 8 3, Attr.intAttr 8 4]
      (MType.spirvArray 4 (MType.int 8)) (by decide) rfl rfl,
    C8_composite_constant_conversion.2.1 sampleConvType sampleConvFloat
      [2, 2] 8 32
      [Attr.intAttr 8 1, Attr.intAttr 8 255, Attr.intAttr 8 3, Attr.intAttr 8 4]
      [Attr.intAttr 32 1, Attr.intAttr 32 0xFFFFFFFF, Attr.intAttr 32 3,
        Attr.intAttr 32 4]
      (MType.spirvArray 4 (MType.int 32)) (by decide) (by decide) (by decide)
      rfl rfl rfl,
    C8_composite_constant_conversion.2.2.1 sampleConvType sampleConvFloat
      [2, 2] (MType.int 8) (MType.vector [2, 2] (MType.int 8))
      [Attr.intAttr 8 1, Attr.intAttr 8 2, Attr.intAttr 8 3, Attr.intAttr 8 4]
      (MType.vector [2, 2] (MType.int 32)) (by decide) rfl,
    C8_composite_constant_conversion.2.2.2.1
      (fun _ => some (MType.vector [2] (MType.int 32))) sampleConvFloat
      (MType.vector [2] (MType.int 1)) (MType.vector [2] (MType.int 1))
      [Attr.intAttr 1 0, Attr.intAttr 1 1]
      (MType.vector [2] (MType.int 32)) (MType.int 32) rfl rfl rfl rfl
      (by decide),
    C8_composite_constant_conversion.2.2.2.2.1 sampleConvType sampleConvFloat
      [2] 64 [Attr.floatAttr 64 7, Attr.floatAttr 64 9]
      [Attr.floatAttr 32 7, Attr.floatAttr 32 9]
      (MType.vector [2] (MType.float 32)) (MType.float 32) (by decide) rfl rfl
      (by decide) rfl,
    C8_composite_constant_conversion.2.2.2.2.2 sampleConvType sampleConvFloat
      [3] 8 32 [Attr.intAttr 8 5, Attr.intAttr 8 6, Attr.intAttr 8 7]
      [Attr.intAttr 32 5, Attr.intAttr 32 6, Attr.intAttr 32 7]
      (MType.spirvArray 3 (MType.int 32)) (by decide) (by decide) (by decide)
      rfl rfl rfl⟩

/-- Claim C9 (refuted by the code): on a composite constant whose shaped
type converts but whose value attribute is not a dense elements
attribute, the pattern does not cleanly report failure — the source
calls `getType()` on the result of the `DenseElementsAttr` downcast
before the null check, dereferencing a null attribute: the outcome is
undefined behavior. -/
theorem C9_nondense_value_undefined_behavior :
    ConstantCompositeOpPattern.matchAndRewrite sampleConvType sampleConvFloat
      (MType.tensor [2] (MType.int 8)) Attr.other =
    PatternResult.undefinedBehavior := rfl
